import Mathlib

/-!
Shallow embedding of `src/app.py` (financial-calendar Streamlit app):
the Google-Sheet-backed ledger (`connect_to_google_sheet`,
`load_data_cached`, `save_data`), the `FinanceManager` operations
(`add_transaction`, `get_transactions_by_date`, `get_monthly_total`,
`get_weekly_total`), and the calendar grid built by the app body
(lines 274-283) that drives the weekly-total sidebar.

Modelling conventions:
* Amounts are `ℚ` (Python floats; none of the verified claims depends on
  binary rounding, only on sign, equality of round-trips, and sums).
* A sheet cell holding a date or an amount is embedded together with the
  outcome of the parse the code performs on it (`pd.to_datetime` /
  `pd.to_numeric` / `float`): constructor `parseable`/`numeric` carries the
  parsed value, `unparseable`/`nonNumeric` carries the raw text.  This
  abstracts the pandas string parsers, which the claims never exercise
  beyond the parseable/unparseable distinction.
* Wall-clock time is a `Nat` of seconds; `@st.cache_data(ttl=60)` keeps a
  snapshot with its load time and serves it while `now - t0 < 60`.
* `uuid.uuid4()` is modelled as an input string (fresh, opaque).
-/

/-- Calendar date, as produced by a successful `pd.to_datetime` parse
(no time-of-day component is used by the code: every consumer goes
through `.dt.date`, `.dt.year`, `.dt.month`). -/
structure Date where
  year : Nat
  month : Nat
  day : Nat
deriving DecidableEq, Repr

/-- Gregorian leap-year test, as in Python's `calendar.isleap`. -/
def isLeap (y : Nat) : Bool :=
  y % 4 == 0 && (y % 100 != 0 || y % 400 == 0)

/-- Number of days in a month, as returned by `calendar.monthrange(y, m)[1]`
(used at line 276 of `src/app.py`). -/
def daysInMonth (y m : Nat) : Nat :=
  match m with
  | 2 => if isLeap y then 29 else 28
  | 4 => 30
  | 6 => 30
  | 9 => 30
  | 11 => 30
  | _ => 31

/-- Cumulative days before month `m` in a non-leap year. -/
def cumDays (m : Nat) : Nat :=
  match m with
  | 1 => 0
  | 2 => 31
  | 3 => 59
  | 4 => 90
  | 5 => 120
  | 6 => 151
  | 7 => 181
  | 8 => 212
  | 9 => 243
  | 10 => 273
  | 11 => 304
  | _ => 334

/-- Leap days among years `1..n`. -/
def leapCount (n : Nat) : Nat := n / 4 - n / 100 + n / 400

/-- Proleptic-Gregorian ordinal of a date (day 1 = 0001-01-01), as in
Python's `datetime.toordinal`. -/
def toOrdinal (d : Date) : Nat :=
  365 * (d.year - 1) + leapCount (d.year - 1) + cumDays d.month +
    (if 2 < d.month && isLeap d.year then 1 else 0) + d.day

/-- Python's `datetime.weekday()`: Monday = 0 .. Sunday = 6
(line 275 of `src/app.py`: `first_weekday = first_day.weekday()`). -/
def pyWeekday (d : Date) : Nat := (toOrdinal d + 6) % 7

/-- The days `1 .. monthrange(y, m)[1]` of a month, in order: the list
`dates` built at line 277 of `src/app.py`. -/
def monthDays (y m : Nat) : List Date :=
  (List.range (daysInMonth y m)).map (fun i => ⟨y, m, i + 1⟩)

/-- A sheet cell in the `date` column, embedded with the outcome of
`pd.to_datetime(cell, errors="coerce")`: either a calendar date, or NaT
with the raw text kept. -/
inductive CellDate where
  | parseable (raw : String) (d : Date)
  | unparseable (raw : String)
deriving DecidableEq, Repr

/-- A sheet cell in the `amount` column, embedded with the outcome of
`pd.to_numeric(cell, errors="coerce")`: a number, or NaN with the raw
text kept. -/
inductive CellAmount where
  | numeric (q : ℚ)
  | nonNumeric (raw : String)
deriving DecidableEq, Repr

/-- One data row of the remote sheet, in the fixed header order
`[date, type, description, amount, recurring_id, recurring_active]`. -/
structure RawRow where
  date : CellDate
  ttype : String
  description : String
  amount : CellAmount
  recurring_id : Option String
  recurring_active : Bool
deriving DecidableEq, Repr

/-- A typed transaction of the loaded DataFrame: `date` is `none` for NaT
(unparseable), `amount` has been coerced with `.fillna(0.0)`. -/
structure Txn where
  date : Option Date
  ttype : String
  description : String
  amount : ℚ
  recurring_id : Option String
  recurring_active : Bool
deriving DecidableEq, Repr

/-- `pd.to_datetime(df["date"], errors="coerce")` on one cell. -/
def parseDate : CellDate → Option Date
  | .parseable _ d => some d
  | .unparseable _ => none

/-- `pd.to_numeric(df["amount"], errors="coerce").fillna(0.0)` on one cell. -/
def parseAmount : CellAmount → ℚ
  | .numeric q => q
  | .nonNumeric _ => 0

/-- Typing of one raw sheet row by `load_data_cached` (lines 49-51). -/
def loadRow (r : RawRow) : Txn :=
  { date := parseDate r.date
    ttype := r.ttype
    description := r.description
    amount := parseAmount r.amount
    recurring_id := r.recurring_id
    recurring_active := r.recurring_active }

/-- The fresh (uncached) load of the sheet's data rows: the DataFrame built
by `load_data_cached` (lines 42-52); only the `amount` and `date` columns
are coerced, other columns are kept as-is. -/
def loadData (sheet : List RawRow) : List Txn := sheet.map loadRow

/-- The literal header row (line 14 of `src/app.py`). -/
def HEADERS : List String :=
  ["date", "type", "description", "amount", "recurring_id", "recurring_active"]

/-- Effect of `connect_to_google_sheet` (lines 27-39) on the table's cell
values: if the table is empty or its first row differs from `HEADERS`, the
table is cleared and the header appended, else it is left untouched. -/
def connect_to_google_sheet (values : List (List String)) : List (List String) :=
  match values with
  | [] => [HEADERS]
  | v0 :: rest => if v0 = HEADERS then v0 :: rest else [HEADERS]

/-- Per-row signed amount used by both totals (the `lambda` at lines 95
and 101): `+amount` for `Income`, `-amount` otherwise (`Expense` and
`Bill` alike). -/
def signedAmount (t : Txn) : ℚ :=
  if t.ttype = "Income" then t.amount else -t.amount

/-- Sum of signed amounts over a row sequence (`.apply(...).sum()`). -/
def sumSigned (ts : List Txn) : ℚ := (ts.map signedAmount).sum

/-- Row filter of `get_monthly_total` (line 94):
`(date.dt.year == year) & (date.dt.month == month)`; NaT has no
year/month, so an unparseable date never matches. -/
def monthPred (year month : Nat) (t : Txn) : Bool :=
  match t.date with
  | some d => decide (d.year = year) && decide (d.month = month)
  | none => false

/-- Row filter of `get_weekly_total` (line 100):
`date.dt.date.isin(week_dates)`; NaT is in no date set. -/
def weekPred (week_dates : List Date) (t : Txn) : Bool :=
  match t.date with
  | some d => decide (d ∈ week_dates)
  | none => false

/-- `FinanceManager.get_transactions_by_date` (lines 86-89). -/
def get_transactions_by_date (data : List Txn) (date : Date) : List Txn :=
  if data.isEmpty then data
  else data.filter (fun t =>
    match t.date with
    | some d => decide (d = date)
    | none => false)

/-- `FinanceManager.get_monthly_total` (lines 91-95). -/
def get_monthly_total (data : List Txn) (year month : Nat) : ℚ :=
  if data.isEmpty then 0
  else sumSigned (data.filter (monthPred year month))

/-- `FinanceManager.get_weekly_total` (lines 97-101). -/
def get_weekly_total (data : List Txn) (week_dates : List Date) : ℚ :=
  if data.isEmpty then 0
  else sumSigned (data.filter (weekPred week_dates))

/-- Zero-pad a numeral to two digits (strftime `%m`, `%d`). -/
def pad2 (n : Nat) : String :=
  if n < 10 then "0" ++ toString n else toString n

/-- Zero-pad a numeral to four digits (strftime `%Y`). -/
def pad4 (n : Nat) : String :=
  if n < 10 then "000" ++ toString n
  else if n < 100 then "00" ++ toString n
  else if n < 1000 then "0" ++ toString n
  else toString n

/-- `pd.to_datetime(date).strftime('%Y-%m-%d')` on an already-parsed date
(line 76 of `src/app.py`). -/
def formatDate (d : Date) : String :=
  pad4 d.year ++ "-" ++ pad2 d.month ++ "-" ++ pad2 d.day

/-- The `date` argument of `add_transaction`, embedded with the outcome of
`pd.to_datetime(date)` (which raises on failure: `errors` defaults to
`"raise"`). -/
inductive DateInput where
  | parseable (d : Date)
  | unparseable (raw : String)
deriving DecidableEq, Repr

/-- The `amount` argument of `add_transaction`, embedded with the outcome
of `float(amount)` (which raises `ValueError` on non-numeric input). -/
inductive AmountInput where
  | coercible (q : ℚ)
  | nonNumeric (raw : String)
deriving DecidableEq, Repr

/-- The Python exception escaping `add_transaction` on invalid input:
a `pandas` parse error from `pd.to_datetime`, or `ValueError` from
`float`. -/
inductive ValidationError where
  | badDate (raw : String)
  | badAmount (raw : String)
deriving DecidableEq, Repr

/-- The `new_entry` dict built at lines 75-82, as the sheet row appended by
`save_data`: date formatted `%Y-%m-%d` (hence parseable back to `d`),
amount the `float`-coerced value, `recurring_id` set only for a recurring
`Bill`, `recurring_active` the literal `True`. -/
def mkEntry (d : Date) (ttype desc : String) (q : ℚ) (recurring : Bool)
    (uuid : String) : RawRow :=
  { date := CellDate.parseable (formatDate d) d
    ttype := ttype
    description := desc
    amount := CellAmount.numeric q
    recurring_id :=
      if recurring && ttype == "Bill" then some (desc ++ "-" ++ uuid) else none
    recurring_active := true }

/-- Session state: the remote sheet's data rows (past the header) and the
`st.cache_data` slot of `load_data_cached` (load time and snapshot). -/
structure AppState where
  sheet : List RawRow
  cache : Option (Nat × List Txn)
deriving Repr

/-- `ttl=60` of the `st.cache_data` decorator at line 41. -/
def cacheTTL : Nat := 60

/-- `load_data_cached` (lines 41-52) under the `st.cache_data(ttl=60)`
decorator: serve the cached snapshot while it is younger than the TTL,
else load fresh and cache. Returns the snapshot and the updated cache
slot. -/
def load_data_cached (st : AppState) (now : Nat) :
    List Txn × Option (Nat × List Txn) :=
  match st.cache with
  | some (t0, snap) =>
      if now - t0 < cacheTTL then (snap, some (t0, snap))
      else (loadData st.sheet, some (now, loadData st.sheet))
  | none => (loadData st.sheet, some (now, loadData st.sheet))

/-- `save_data` (lines 54-65): append the new row to the sheet, then
`load_data_cached.clear()` drops the cached snapshot. -/
def save_data (st : AppState) (new_entry : RawRow) : AppState :=
  { sheet := st.sheet ++ [new_entry], cache := none }

/-- `FinanceManager.add_transaction` (lines 74-84). The `new_entry` dict
literal evaluates `pd.to_datetime(date)` first and `float(amount)` after
it, so either raises before `save_data` runs; on success the row is
appended, the cache cleared, and `self.data` re-assigned from
`load_data_cached()`. Returns the new state and the new `self.data`. -/
def add_transaction (st : AppState) (now : Nat) (date : DateInput)
    (ttype desc : String) (amount : AmountInput) (recurring : Bool)
    (uuid : String) : Except ValidationError (AppState × List Txn) :=
  match date, amount with
  | .unparseable s, _ => .error (.badDate s)
  | .parseable _, .nonNumeric s => .error (.badAmount s)
  | .parseable d, .coercible q =>
      let st1 := save_data st (mkEntry d ttype desc q recurring uuid)
      let res := load_data_cached st1 now
      .ok ({ st1 with cache := res.2 }, res.1)

/-- One slot of the `calendar_dates` list built at lines 279-283: an empty
padding string `""` or a day of the displayed month. -/
inductive Cell where
  | empty
  | day (d : Date)
deriving DecidableEq, Repr

/-- The date carried by a non-padding cell. -/
def cellDay : Cell → Option Date
  | .empty => none
  | .day d => some d

/-- The padding appended by the `while len(calendar_dates) % 7 != 0` loop
(lines 282-283): how many `""` slots bring a length up to a multiple
of 7. -/
def padTail (n : Nat) : Nat := (7 - n % 7) % 7

/-- The `calendar_dates` list (lines 279-283) for an arbitrary leading
padding `fw`: `fw` empty slots, the days of the month, then empty slots
up to a multiple of 7. -/
def calendarCells (y m fw : Nat) : List Cell :=
  List.replicate fw Cell.empty ++ (monthDays y m).map Cell.day ++
    List.replicate (padTail (fw + daysInMonth y m)) Cell.empty

/-- The `calendar_dates` list as the app builds it, with the leading
padding `first_day.weekday()` (lines 274-283). -/
def calendarGrid (y m : Nat) : List Cell :=
  calendarCells y m (pyWeekday ⟨y, m, 1⟩)

/-- The `calendar_dates[i:i+7]` slices of the `for i in range(0, len, 7)`
loops (lines 286, 328): the list cut into consecutive chunks of 7. -/
def chunks7 {α : Type} : List α → List (List α)
  | [] => []
  | [a] => [[a]]
  | [a, b] => [[a, b]]
  | [a, b, c] => [[a, b, c]]
  | [a, b, c, d] => [[a, b, c, d]]
  | [a, b, c, d, e] => [[a, b, c, d, e]]
  | [a, b, c, d, e, f] => [[a, b, c, d, e, f]]
  | a :: b :: c :: d :: e :: f :: g :: rest =>
      [a, b, c, d, e, f, g] :: chunks7 rest

/-- `week_dates = [d.date() for d in week if d != ""]` (line 330): the
actual days of a displayed week, padding removed. -/
def weekDates (w : List Cell) : List Date := w.filterMap cellDay

/-- The weeks of a month's calendar grid (line 328's chunking). -/
def gridWeeks (y m : Nat) : List (List Cell) := chunks7 (calendarGrid y m)

/-- The session state after an `add_transaction` call: unchanged when the
call raises (the exception fires while building `new_entry`, before any
write to the sheet), the returned state when it succeeds. -/
def add_transaction_state (st : AppState) (now : Nat) (date : DateInput)
    (ttype desc : String) (amount : AmountInput) (recurring : Bool)
    (uuid : String) : AppState :=
  match add_transaction st now date ttype desc amount recurring uuid with
  | .ok (st2, _) => st2
  | .error _ => st

/-- Signed contribution of one row to a filtered total: its signed amount
when the filter keeps it, 0 otherwise. -/
def ind (p : Txn → Bool) (t : Txn) : ℚ :=
  if p t then signedAmount t else 0

theorem sumSigned_filter (p : Txn → Bool) (data : List Txn) :
    sumSigned (data.filter p) = (data.map (ind p)).sum := by
  induction data with
  | nil => rfl
  | cons t ts ih =>
      by_cases h : p t <;>
        simp [List.filter_cons, h, sumSigned, ind, ih] <;>
        simp [sumSigned] at ih <;> simp [ih]

theorem get_weekly_total_eq (data : List Txn) (w : List Date) :
    get_weekly_total data w = (data.map (ind (weekPred w))).sum := by
  cases data with
  | nil => rfl
  | cons t ts => simp [get_weekly_total, sumSigned_filter]

theorem get_monthly_total_eq (data : List Txn) (y m : Nat) :
    get_monthly_total data y m = (data.map (ind (monthPred y m))).sum := by
  cases data with
  | nil => rfl
  | cons t ts => simp [get_monthly_total, sumSigned_filter]

theorem get_transactions_by_date_eq (data : List Txn) (d : Date) :
    get_transactions_by_date data d = data.filter (fun t =>
      match t.date with
      | some d0 => decide (d0 = d)
      | none => false) := by
  cases data <;> simp [get_transactions_by_date]

theorem sum_map_zero {α : Type} (l : List α) :
    (l.map (fun _ => (0 : ℚ))).sum = 0 := by
  induction l <;> simp [*]

theorem sum_map_add {α : Type} (l : List α) (f g : α → ℚ) :
    (l.map (fun x => f x + g x)).sum = (l.map f).sum + (l.map g).sum := by
  induction l with
  | nil => simp
  | cons a l ih => simp [ih]; ring

theorem sum_swap (W : List (List Date)) (data : List Txn)
    (F : List Date → Txn → ℚ) :
    (W.map (fun w => (data.map (F w)).sum)).sum
      = (data.map (fun t => (W.map (fun w => F w t)).sum)).sum := by
  induction W with
  | nil => simp [sum_map_zero]
  | cons w W ih => simp [ih, sum_map_add]

theorem sum_ind_join (t : Txn) (W : List (List Date))
    (hnd : W.flatten.Nodup) :
    (W.map (fun w => ind (weekPred w) t)).sum = ind (weekPred W.flatten) t := by
  induction W with
  | nil => cases h : t.date <;> simp [ind, weekPred, h]
  | cons w W ih =>
      rw [List.flatten_cons] at hnd ⊢
      rw [List.nodup_append] at hnd
      obtain ⟨h1, h2, hdisj⟩ := hnd
      cases ht : t.date with
      | none => simp [ind, weekPred, ht, sum_map_zero]
      | some d =>
          rw [List.map_cons, List.sum_cons, ih h2]
          by_cases hw : d ∈ w <;> by_cases hj : d ∈ W.flatten
          · exact absurd hj (hdisj hw)
          · simp [ind, weekPred, ht, hw, hj]
          · simp [ind, weekPred, ht, hw, hj]
          · simp [ind, weekPred, ht, hw, hj]

theorem chunks7_flatten {α : Type} : ∀ l : List α, (chunks7 l).flatten = l
  | [] => rfl
  | [_] => rfl
  | [_, _] => rfl
  | [_, _, _] => rfl
  | [_, _, _, _] => rfl
  | [_, _, _, _, _] => rfl
  | [_, _, _, _, _, _] => rfl
  | a :: b :: c :: d :: e :: f :: g :: rest => by
      rw [chunks7, List.flatten_cons, chunks7_flatten rest]
      rfl

theorem filterMap_cellDay_replicate (k : Nat) :
    List.filterMap cellDay (List.replicate k Cell.empty) = [] := by
  induction k with
  | zero => rfl
  | succ k ih => simp [List.replicate_succ, List.filterMap_cons, cellDay, ih]

theorem weekDates_calendarCells (y m fw : Nat) :
    List.filterMap cellDay (calendarCells y m fw) = monthDays y m := by
  simp [calendarCells, List.filterMap_append, filterMap_cellDay_replicate,
    List.filterMap_map]
  have : (cellDay ∘ Cell.day) = some := by
    funext d; rfl
  simp [this]

theorem filterMap_flatten_map (f : Cell → Option Date) :
    ∀ L : List (List Cell),
      (L.map (List.filterMap f)).flatten = List.filterMap f L.flatten
  | [] => rfl
  | w :: L => by
      rw [List.map_cons, List.flatten_cons, filterMap_flatten_map f L,
        List.flatten_cons, List.filterMap_append]

theorem monthDays_nodup (y m : Nat) : (monthDays y m).Nodup := by
  refine List.Nodup.map ?_ (List.nodup_range _)
  intro i j h
  have := congrArg Date.day h
  simpa using this

theorem mem_monthDays (y m : Nat) (d : Date) :
    d ∈ monthDays y m ↔
      d.year = y ∧ d.month = m ∧ 1 ≤ d.day ∧ d.day ≤ daysInMonth y m := by
  simp only [monthDays, List.mem_map, List.mem_range]
  constructor
  · rintro ⟨i, hi, rfl⟩
    refine ⟨rfl, rfl, ?_, ?_⟩
    · show 1 ≤ i + 1
      omega
    · show i + 1 ≤ daysInMonth y m
      omega
  · rintro ⟨hy, hm, h1, h2⟩
    obtain ⟨y0, m0, d0⟩ := d
    dsimp only at hy hm h1 h2
    subst hy
    subst hm
    refine ⟨d0 - 1, by omega, ?_⟩
    have hd : d0 - 1 + 1 = d0 := by omega
    rw [hd]

theorem ind_week_month (data : List Txn) (y m : Nat)
    (hval : ∀ t ∈ data, ∀ d, t.date = some d →
      1 ≤ d.day ∧ d.day ≤ daysInMonth d.year d.month) :
    ∀ t ∈ data, ind (weekPred (monthDays y m)) t = ind (monthPred y m) t := by
  intro t ht
  cases hd : t.date with
  | none => simp [ind, weekPred, monthPred, hd]
  | some d =>
      have hv := hval t ht d hd
      by_cases hmem : d ∈ monthDays y m
      · have hym := (mem_monthDays y m d).mp hmem
        simp [ind, weekPred, monthPred, hd, hmem, hym.1, hym.2.1]
      · have hnotym : ¬(d.year = y ∧ d.month = m) := by
          rintro ⟨h1, h2⟩
          exact hmem ((mem_monthDays y m d).mpr ⟨h1, h2, hv.1, h1 ▸ h2 ▸ hv.2⟩)
        by_cases h1 : d.year = y
        · have h2 : ¬ d.month = m := fun h2 => hnotym ⟨h1, h2⟩
          simp [ind, weekPred, monthPred, hd, hmem, h1, h2]
        · simp [ind, weekPred, monthPred, hd, hmem, h1]

/-- C6: for every snapshot, year and month, `get_monthly_total year month`
equals the sum of `get_weekly_total` over the weeks of that month's
calendar grid (each week's day set being the month's own days, padding
slots carrying no day), provided every parsed date in the snapshot is a
valid calendar date (as every `pd.to_datetime` result is): no day is
counted twice or dropped. -/
theorem monthly_total_eq_sum_of_weekly_totals (data : List Txn) (y m : Nat)
    (hval : ∀ t ∈ data, ∀ d, t.date = some d →
      1 ≤ d.day ∧ d.day ≤ daysInMonth d.year d.month) :
    ((gridWeeks y m).map (fun w => get_weekly_total data (weekDates w))).sum
      = get_monthly_total data y m := by
  have hflat : ((gridWeeks y m).map weekDates).flatten = monthDays y m := by
    show ((gridWeeks y m).map (List.filterMap cellDay)).flatten = monthDays y m
    rw [filterMap_flatten_map, gridWeeks, chunks7_flatten, calendarGrid]
    exact weekDates_calendarCells y m _
  calc ((gridWeeks y m).map (fun w => get_weekly_total data (weekDates w))).sum
      = (((gridWeeks y m).map weekDates).map
          (fun days => (data.map (ind (weekPred days))).sum)).sum := by
        rw [List.map_map]
        apply congrArg List.sum
        apply List.map_congr_left
        intro w _
        exact get_weekly_total_eq data (weekDates w)
    _ = (data.map (fun t => (((gridWeeks y m).map weekDates).map
          (fun days => ind (weekPred days) t)).sum)).sum :=
        sum_swap _ _ _
    _ = (data.map (ind (monthPred y m))).sum := by
        apply congrArg List.sum
        apply List.map_congr_left
        intro t ht
        rw [sum_ind_join t _ (by rw [hflat]; exact monthDays_nodup y m), hflat]
        exact ind_week_month data y m hval t ht
    _ = get_monthly_total data y m := (get_monthly_total_eq data y m).symm

/-- C6 witness: for the snapshot holding one Income of 1000 on 2025-01-05,
the weekly totals of January 2025's grid sum to the monthly total, 1000. -/
theorem monthly_total_eq_sum_of_weekly_totals_witness :
    ((gridWeeks 2025 1).map (fun w => get_weekly_total
        [⟨some ⟨2025, 1, 5⟩, "Income", "Paycheck", 1000, none, true⟩]
        (weekDates w))).sum
      = get_monthly_total
          [⟨some ⟨2025, 1, 5⟩, "Income", "Paycheck", 1000, none, true⟩] 2025 1 ∧
    get_monthly_total
        [⟨some ⟨2025, 1, 5⟩, "Income", "Paycheck", 1000, none, true⟩] 2025 1
      = 1000 := by
  constructor
  · apply monthly_total_eq_sum_of_weekly_totals
    intro t ht d hd
    rw [List.mem_singleton] at ht
    subst ht
    have hd2 : some (⟨2025, 1, 5⟩ : Date) = some d := hd
    cases Option.some.inj hd2
    decide
  · norm_num [get_monthly_total, sumSigned, monthPred, signedAmount]

/-- C3: each transaction's signed contribution to both totals is
`+amount` for `Income` and `-amount` otherwise; for a positive amount the
signed amount is positive iff the type is `Income`, and `Bill` and
`Expense` get the identical negative sign. -/
theorem signed_contribution_sign (t : Txn) :
    (0 < t.amount → (0 < signedAmount t ↔ t.ttype = "Income")) ∧
    (t.ttype = "Bill" ∨ t.ttype = "Expense" → signedAmount t = -t.amount) ∧
    (∀ data y m, get_monthly_total data y m
        = (data.map (fun t0 => if monthPred y m t0 then signedAmount t0 else 0)).sum) ∧
    (∀ data days, get_weekly_total data days
        = (data.map (fun t0 => if weekPred days t0 then signedAmount t0 else 0)).sum) := by
  refine ⟨?_, ?_, ?_, ?_⟩
  · intro hpos
    by_cases h : t.ttype = "Income"
    · simp [signedAmount, h, hpos]
    · simp [signedAmount, h]
      linarith
  · rintro (h | h) <;> exact if_neg (by rw [h]; decide)
  · intro data y m
    exact get_monthly_total_eq data y m
  · intro data days
    exact get_weekly_total_eq data days

/-- C3 witness: a 1000 Income contributes positively; an 800 Bill and an
800 Expense both contribute exactly -800. -/
theorem signed_contribution_sign_witness :
    (0 < signedAmount ⟨some ⟨2025, 1, 5⟩, "Income", "Paycheck", 1000, none, true⟩) ∧
    signedAmount ⟨some ⟨2025, 1, 6⟩, "Bill", "Rent", 800, none, true⟩ = -800 ∧
    signedAmount ⟨some ⟨2025, 1, 7⟩, "Expense", "Food", 800, none, true⟩ = -800 := by
  refine ⟨?_, ?_, ?_⟩
  · exact ((signed_contribution_sign _).1 (by norm_num)).mpr rfl
  · exact (signed_contribution_sign _).2.1 (Or.inl rfl)
  · exact (signed_contribution_sign _).2.1 (Or.inr rfl)

/-- C8: the header self-heal of `connect_to_google_sheet` is idempotent on
the table state, and is a no-op whenever the first row already equals the
exact header. -/
theorem connect_selfheal_idempotent (values : List (List String)) :
    connect_to_google_sheet (connect_to_google_sheet values)
        = connect_to_google_sheet values ∧
    (values.head? = some HEADERS → connect_to_google_sheet values = values) := by
  constructor
  · match values with
    | [] => rfl
    | v0 :: rest =>
        by_cases h : v0 = HEADERS <;> simp [connect_to_google_sheet, h]
  · intro h
    match values with
    | v0 :: rest =>
        have h0 : v0 = HEADERS := by simpa using h
        simp [connect_to_google_sheet, h0]

/-- C8 witness: re-running the self-heal on a table whose first row is the
exact header leaves the table (header plus one data row) unchanged. -/
theorem connect_selfheal_idempotent_witness :
    connect_to_google_sheet
        [HEADERS, ["2025-01-05", "Income", "Paycheck", "1000.0", "", "True"]]
      = [HEADERS, ["2025-01-05", "Income", "Paycheck", "1000.0", "", "True"]] :=
  (connect_selfheal_idempotent _).2 rfl

/-- C9: an `add_transaction` call whose date is unparseable, or whose
amount fails `float` coercion, surfaces an error to the caller
(`pd.to_datetime` / `float` raise while `new_entry` is being built) and
leaves the sheet's rows exactly as before: nothing is written. -/
theorem invalid_add_transaction_rejected_no_write (st : AppState) (now : Nat)
    (ttype desc : String) (recurring : Bool) (uuid : String) :
    (∀ s amt, add_transaction st now (.unparseable s) ttype desc amt recurring uuid
        = .error (.badDate s) ∧
      (add_transaction_state st now (.unparseable s) ttype desc amt recurring uuid).sheet
        = st.sheet) ∧
    (∀ d s, add_transaction st now (.parseable d) ttype desc (.nonNumeric s) recurring uuid
        = .error (.badAmount s) ∧
      (add_transaction_state st now (.parseable d) ttype desc (.nonNumeric s) recurring uuid).sheet
        = st.sheet) := by
  refine ⟨fun s amt => ?_, fun d s => ⟨rfl, rfl⟩⟩
  cases amt <;> exact ⟨rfl, rfl⟩

/-- C10: every row stored by `add_transaction` has `recurring_active`
equal to the literal `True`, and `recurring_id` is `None` unless the
recurring flag is set and the type is exactly `"Bill"`, in which case it
is the description, a dash, and the fresh UUID. -/
theorem recurring_fields_on_add (st : AppState) (now : Nat) (d : Date)
    (ttype desc : String) (q : ℚ) (recurring : Bool) (uuid : String) :
    ∃ st2 snap,
      add_transaction st now (.parseable d) ttype desc (.coercible q) recurring uuid
          = .ok (st2, snap) ∧
      st2.sheet.getLast? = some (mkEntry d ttype desc q recurring uuid) ∧
      (mkEntry d ttype desc q recurring uuid).recurring_active = true ∧
      ((mkEntry d ttype desc q recurring uuid).recurring_id = none
          ↔ ¬(recurring = true ∧ ttype = "Bill")) ∧
      ((recurring = true ∧ ttype = "Bill") →
        (mkEntry d ttype desc q recurring uuid).recurring_id
          = some (desc ++ "-" ++ uuid)) := by
  refine ⟨_, _, rfl, ?_, rfl, ?_, ?_⟩
  · show (st.sheet ++ [mkEntry d ttype desc q recurring uuid]).getLast? = _
    simp
  · rw [mkEntry]
    by_cases h : recurring && ttype == "Bill"
    · rw [if_pos h]
      simp at h ⊢
      exact h
    · rw [if_neg h]
      simp at h ⊢
      intro h1
      exact h h1
  · rintro ⟨h1, h2⟩
    rw [mkEntry, if_pos (by rw [h1, h2]; rfl)]

/-- C10 witness: a recurring Bill gets `description-uuid` as its
recurring id; a recurring Expense gets `None`; both rows store
`recurring_active = True`. -/
theorem recurring_fields_on_add_witness :
    (mkEntry ⟨2025, 1, 7⟩ "Bill" "Rent" 800 true "u1").recurring_id
        = some ("Rent" ++ "-" ++ "u1") ∧
    (mkEntry ⟨2025, 1, 8⟩ "Expense" "Gas" 30 true "u2").recurring_id = none ∧
    (mkEntry ⟨2025, 1, 7⟩ "Bill" "Rent" 800 true "u1").recurring_active = true := by
  refine ⟨?_, ?_, ?_⟩
  · obtain ⟨st2, snap, _, _, _, _, himp⟩ :=
      recurring_fields_on_add ⟨[], none⟩ 0 ⟨2025, 1, 7⟩ "Bill" "Rent" 800 true "u1"
    exact himp ⟨rfl, rfl⟩
  · obtain ⟨st2, snap, _, _, _, hiff, _⟩ :=
      recurring_fields_on_add ⟨[], none⟩ 0 ⟨2025, 1, 8⟩ "Expense" "Gas" 30 true "u2"
    exact hiff.mpr (by rintro ⟨h1, h2⟩; exact absurd h2 (by decide))
  · obtain ⟨st2, snap, _, _, hact, _, _⟩ :=
      recurring_fields_on_add ⟨[], none⟩ 0 ⟨2025, 1, 7⟩ "Bill" "Rent" 800 true "u1"
    exact hact

/-- C2: after a successful `add_transaction` of a valid transaction, the
row appended to the sheet carries the date formatted `YYYY-MM-DD` and the
amount exactly as entered, and the snapshot re-read by the same call
contains the transaction's normalized form (its date parsing back to the
input date, its amount unchanged). -/
theorem add_transaction_readAll_roundtrip (st : AppState) (now : Nat)
    (d : Date) (ttype desc : String) (q : ℚ) (recurring : Bool)
    (uuid : String) :
    add_transaction st now (.parseable d) ttype desc (.coercible q) recurring uuid
      = .ok (⟨st.sheet ++ [mkEntry d ttype desc q recurring uuid],
              some (now, loadData (st.sheet ++ [mkEntry d ttype desc q recurring uuid]))⟩,
             loadData (st.sheet ++ [mkEntry d ttype desc q recurring uuid])) ∧
    (mkEntry d ttype desc q recurring uuid).date
      = CellDate.parseable (formatDate d) d ∧
    loadRow (mkEntry d ttype desc q recurring uuid)
      = ⟨some d, ttype, desc, q,
          if recurring && ttype == "Bill" then some (desc ++ "-" ++ uuid) else none,
          true⟩ ∧
    loadRow (mkEntry d ttype desc q recurring uuid)
      ∈ loadData (st.sheet ++ [mkEntry d ttype desc q recurring uuid]) := by
  refine ⟨rfl, rfl, rfl, ?_⟩
  rw [loadData, List.map_append]
  exact List.mem_append_right _ (by simp)

/-- C7: with the TTL cache populated before the write and still within its
TTL, a successful `add_transaction` clears the cache (`save_data` calls
`load_data_cached.clear()`), so the snapshot the writer reads back is the
fresh load of the appended sheet and contains the new transaction --
read-your-writes -- even though a plain read at the same instant would
still have served the stale cached snapshot. -/
theorem read_your_writes_after_add (sheet : List RawRow) (t0 : Nat)
    (snap0 : List Txn) (now : Nat) (h : now - t0 < cacheTTL) (d : Date)
    (ttype desc : String) (q : ℚ) (recurring : Bool) (uuid : String) :
    (load_data_cached ⟨sheet, some (t0, snap0)⟩ now).1 = snap0 ∧
    ∃ st2,
      add_transaction ⟨sheet, some (t0, snap0)⟩ now (.parseable d) ttype desc
          (.coercible q) recurring uuid
        = .ok (st2, loadData (sheet ++ [mkEntry d ttype desc q recurring uuid])) ∧
      loadRow (mkEntry d ttype desc q recurring uuid)
        ∈ loadData (sheet ++ [mkEntry d ttype desc q recurring uuid]) := by
  refine ⟨?_, _, rfl, ?_⟩
  · simp [load_data_cached, h]
  · rw [loadData, List.map_append]
    exact List.mem_append_right _ (by simp)

/-- C7 witness: with a cache loaded at time 0, still fresh at time 10
(TTL 60), adding an Income of 1000 makes the returned snapshot the fresh
load containing the new row. -/
theorem read_your_writes_after_add_witness :
    (10 : Nat) - 0 < cacheTTL ∧
    ((load_data_cached ⟨[], some (0, [])⟩ 10).1 = [] ∧
     ∃ st2,
       add_transaction ⟨[], some (0, [])⟩ 10 (.parseable ⟨2025, 1, 5⟩) "Income"
           "Pay" (.coercible 1000) false "u"
         = .ok (st2, loadData ([] ++ [mkEntry ⟨2025, 1, 5⟩ "Income" "Pay" 1000 false "u"])) ∧
       loadRow (mkEntry ⟨2025, 1, 5⟩ "Income" "Pay" 1000 false "u")
         ∈ loadData ([] ++ [mkEntry ⟨2025, 1, 5⟩ "Income" "Pay" 1000 false "u"])) :=
  ⟨by decide,
   read_your_writes_after_add [] 0 [] 10 (by decide) ⟨2025, 1, 5⟩ "Income" "Pay"
     1000 false "u"⟩

/-- C4: a stored row whose date does not parse stays in the loaded
snapshot (the row count includes it) but is excluded from
`get_transactions_by_date` for every date and contributes nothing to
`get_weekly_total` or `get_monthly_total` for any day set or
year/month. -/
theorem unparseable_date_row_inert (pre post : List RawRow) (r : RawRow)
    (s : String) (hr : r.date = .unparseable s) :
    (loadData (pre ++ [r] ++ post)).length = pre.length + 1 + post.length ∧
    (∀ d, get_transactions_by_date (loadData (pre ++ [r] ++ post)) d
        = get_transactions_by_date (loadData (pre ++ post)) d) ∧
    (∀ days, get_weekly_total (loadData (pre ++ [r] ++ post)) days
        = get_weekly_total (loadData (pre ++ post)) days) ∧
    (∀ y m, get_monthly_total (loadData (pre ++ [r] ++ post)) y m
        = get_monthly_total (loadData (pre ++ post)) y m) := by
  have hdate : (loadRow r).date = none := by simp [loadRow, hr, parseDate]
  refine ⟨by simp [loadData]; omega, ?_, ?_, ?_⟩
  · intro d
    rw [get_transactions_by_date_eq, get_transactions_by_date_eq]
    simp [loadData, List.filter_append, hdate]
  · intro days
    rw [get_weekly_total_eq, get_weekly_total_eq]
    simp [loadData, List.map_append, ind, weekPred, hdate]
  · intro y m
    rw [get_monthly_total_eq, get_monthly_total_eq]
    simp [loadData, List.map_append, ind, monthPred, hdate]

/-- C4 witness: appending the single row with date `"not-a-date"` gives a
snapshot of row count 1, yet the January 2025 queries see nothing of
it. -/
theorem unparseable_date_row_inert_witness :
    (loadData ([] ++ [⟨CellDate.unparseable "not-a-date", "Expense", "x",
        CellAmount.numeric 5, none, true⟩] ++ [])).length = 1 ∧
    get_monthly_total (loadData ([] ++ [⟨CellDate.unparseable "not-a-date",
        "Expense", "x", CellAmount.numeric 5, none, true⟩] ++ [])) 2025 1
      = get_monthly_total (loadData ([] ++ [])) 2025 1 ∧
    get_transactions_by_date (loadData ([] ++ [⟨CellDate.unparseable "not-a-date",
        "Expense", "x", CellAmount.numeric 5, none, true⟩] ++ [])) ⟨2025, 1, 5⟩
      = get_transactions_by_date (loadData ([] ++ [])) ⟨2025, 1, 5⟩ := by
  have h := unparseable_date_row_inert [] []
    ⟨CellDate.unparseable "not-a-date", "Expense", "x", CellAmount.numeric 5,
      none, true⟩ "not-a-date" rfl
  exact ⟨h.1, h.2.2.2 2025 1, h.2.1 ⟨2025, 1, 5⟩⟩

/-- C5: a stored row whose amount is not numeric does not make the read
fail (it is typed with amount coerced to 0 and stays in the snapshot) and
it leaves `get_weekly_total` and `get_monthly_total` unchanged: removing
it gives the identical aggregates. -/
theorem nonnumeric_amount_row_inert (pre post : List RawRow) (r : RawRow)
    (s : String) (hr : r.amount = .nonNumeric s) :
    (loadData (pre ++ [r] ++ post)).length = pre.length + 1 + post.length ∧
    (∀ days, get_weekly_total (loadData (pre ++ [r] ++ post)) days
        = get_weekly_total (loadData (pre ++ post)) days) ∧
    (∀ y m, get_monthly_total (loadData (pre ++ [r] ++ post)) y m
        = get_monthly_total (loadData (pre ++ post)) y m) := by
  have hamt : (loadRow r).amount = 0 := by simp [loadRow, hr, parseAmount]
  have hsig : signedAmount (loadRow r) = 0 := by
    rw [signedAmount]
    by_cases h : (loadRow r).ttype = "Income" <;> simp [h, hamt]
  refine ⟨by simp [loadData]; omega, ?_, ?_⟩
  · intro days
    rw [get_weekly_total_eq, get_weekly_total_eq]
    simp [loadData, List.map_append, ind, hsig]
  · intro y m
    rw [get_monthly_total_eq, get_monthly_total_eq]
    simp [loadData, List.map_append, ind, hsig]

/-- C5 witness: a row dated 2025-01-05 whose amount cell is `"abc"` loads
without failure and leaves the January 2025 monthly total at 0. -/
theorem nonnumeric_amount_row_inert_witness :
    (loadData ([] ++ [⟨CellDate.parseable "2025-01-05" ⟨2025, 1, 5⟩, "Expense",
        "x", CellAmount.nonNumeric "abc", none, true⟩] ++ [])).length = 1 ∧
    get_monthly_total (loadData ([] ++ [⟨CellDate.parseable "2025-01-05"
        ⟨2025, 1, 5⟩, "Expense", "x", CellAmount.nonNumeric "abc", none,
        true⟩] ++ [])) 2025 1
      = get_monthly_total (loadData ([] ++ [])) 2025 1 := by
  have h := nonnumeric_amount_row_inert [] []
    ⟨CellDate.parseable "2025-01-05" ⟨2025, 1, 5⟩, "Expense", "x",
      CellAmount.nonNumeric "abc", none, true⟩ "abc" rfl
  exact ⟨h.1, h.2.2 2025 1⟩

/-- C1 counterexample: `add_transaction` called with the amount input
`"-5"` (which `float` coerces to -5) succeeds and writes a row whose
stored amount is -5, a negative value: the input is neither rejected nor
clamped to 0. -/
theorem add_transaction_stores_negative_amount :
    (add_transaction_state ⟨[], none⟩ 0 (.parseable ⟨2025, 1, 5⟩) "Expense"
        "Rent" (.coercible (-5)) false "u").sheet.map (fun r => r.amount)
      = [CellAmount.numeric (-5)] ∧ ((-5 : ℚ) < 0) := by
  exact ⟨rfl, by norm_num⟩

/-- C1 amended: `add_transaction` stores the amount exactly as coerced by
`float(amount)`, with no sign check: a coercible amount `q` -- negative
included -- is appended verbatim, so a negative input reaches storage as
a negative amount (non-negativity is enforced only by the UI's
`st.number_input(min_value=0.0)` widget, not by `add_transaction`). -/
theorem add_transaction_amount_stored_verbatim (st : AppState) (now : Nat)
    (d : Date) (ttype desc : String) (q : ℚ) (recurring : Bool)
    (uuid : String) :
    (add_transaction_state st now (.parseable d) ttype desc (.coercible q)
        recurring uuid).sheet
      = st.sheet ++ [mkEntry d ttype desc q recurring uuid] ∧
    (mkEntry d ttype desc q recurring uuid).amount = CellAmount.numeric q :=
  ⟨rfl, rfl⟩
